import Mathlib

/-!
# Verification of the PR-Firm pipeline core

Shallow embedding, in Lean 4, of the pipeline-orchestration core of the
`pr_firm` repository, together with proofs about it.

The embedding covers:

* the resilience wrapper of `src/utils/call_llm.py`
  (`SimpleRateLimiter`, `SimpleCircuitBreaker`, `call_llm`);
* the revision loop of `src/nodes.py` (`StyleComplianceNode`) and the
  routing graph wired in `src/flow.py` (`create_pr_flow`);
* the guidelines `BatchFlow` (`FormatGuidelinesBatch`, the
  `FormatGuidelinesRouter`, and the per-platform guideline nodes);
* the default-population of the shared store performed by
  `EngagementManagerNode.post` in `src/nodes.py`, with the subreddit
  normalizer of `src/utils/input_normalize.py` and the report builder of
  `src/utils/report_builder.py`.

Modelling conventions:

* Python `time.time()` floats become explicit rational timestamps that the
  caller passes to each operation;
* Python dict fields become record fields, `Option` marking optional keys;
* external collaborators that the spec places out of scope (the OpenRouter
  client, `build_guidelines`, the regex violation checker, the on-disk
  preset store) become function parameters, so every theorem holds for any
  behaviour of those collaborators;
* side effects that do not touch the shared record (stream emission,
  `save_preset` disk writes) are dropped.
-/

/-! ## Resilience wrapper (src/utils/call_llm.py) -/

/-- State of `SimpleRateLimiter` (src/utils/call_llm.py lines 12-18):
a fixed-window counter with mutable `_window_start` and `_count`. -/
structure SimpleRateLimiter where
  max_calls : Nat
  period_s : ℚ
  window_start : ℚ
  count : Nat
  deriving DecidableEq

/-- `SimpleRateLimiter.__init__`: fresh limiter created at time `now`. -/
def SimpleRateLimiter.init (max_calls : Nat) (period_s : ℚ) (now : ℚ) :
    SimpleRateLimiter :=
  { max_calls := max_calls, period_s := period_s, window_start := now, count := 0 }

/-- `SimpleRateLimiter.allow` (lines 20-29): reset the window when
`now - window_start >= period_s`, then accept while `count < max_calls`.
Returns the decision together with the updated limiter state. -/
def SimpleRateLimiter.allow (now : ℚ) (rl : SimpleRateLimiter) :
    Bool × SimpleRateLimiter :=
  let rl :=
    if now - rl.window_start ≥ rl.period_s then
      { rl with window_start := now, count := 0 }
    else rl
  if rl.count < rl.max_calls then
    (true, { rl with count := rl.count + 1 })
  else
    (false, rl)

/-- The three states of `SimpleCircuitBreaker._state`:
`"closed"`, `"open"`, `"half_open"`. -/
inductive BreakerState where
  | closed
  | opened
  | half_open
  deriving DecidableEq

/-- State of `SimpleCircuitBreaker` (src/utils/call_llm.py lines 32-39). -/
structure SimpleCircuitBreaker where
  failure_threshold : Nat
  open_duration_s : ℚ
  failures : Nat
  state : BreakerState
  opened_at : ℚ
  deriving DecidableEq

/-- `SimpleCircuitBreaker.__init__`: closed breaker with zero failures. -/
def SimpleCircuitBreaker.init (failure_threshold : Nat) (open_duration_s : ℚ) :
    SimpleCircuitBreaker :=
  { failure_threshold := failure_threshold, open_duration_s := open_duration_s,
    failures := 0, state := .closed, opened_at := 0 }

/-- `SimpleCircuitBreaker.record_success` (lines 41-45): reset the failure
counter and close the breaker. -/
def SimpleCircuitBreaker.record_success (cb : SimpleCircuitBreaker) :
    SimpleCircuitBreaker :=
  let cb := { cb with failures := 0 }
  if cb.state ≠ .closed then { cb with state := .closed } else cb

/-- `SimpleCircuitBreaker.record_failure` (lines 47-52): count the failure;
on reaching the threshold, go to `open` and timestamp the transition. -/
def SimpleCircuitBreaker.record_failure (now : ℚ) (cb : SimpleCircuitBreaker) :
    SimpleCircuitBreaker :=
  let cb := { cb with failures := cb.failures + 1 }
  if cb.failures ≥ cb.failure_threshold then
    { cb with state := .opened, opened_at := now }
  else cb

/-- `SimpleCircuitBreaker.allow_request` (lines 54-65): closed lets the call
through; open fails fast until `open_duration_s` has elapsed, then moves to
half-open and admits a trial; half-open admits the request. -/
def SimpleCircuitBreaker.allow_request (now : ℚ) (cb : SimpleCircuitBreaker) :
    Bool × SimpleCircuitBreaker :=
  match cb.state with
  | .closed => (true, cb)
  | .opened =>
      if now - cb.opened_at ≥ cb.open_duration_s then
        (true, { cb with state := .half_open })
      else
        (false, cb)
  | .half_open => (true, cb)

/-- The errors `call_llm` can surface: the two wrapper fail-fast
`RuntimeError`s of lines 81-85, and a propagated failure of the underlying
`or_chat` call (lines 91-93). -/
inductive LLMError where
  | rateLimitExceeded
  | circuitOpenError
  | callFailed (msg : String)
  deriving DecidableEq

/-- Result of one invocation of the wrapped call: the outcome, the updated
limiter and breaker states, and whether the underlying outbound `or_chat`
call was invoked. -/
structure CallLLMResult where
  result : Except LLMError String
  rl : SimpleRateLimiter
  cb : SimpleCircuitBreaker
  invoked : Bool

/-- `call_llm` (src/utils/call_llm.py lines 73-93).  `t1`, `t2`, `t3` are
the timestamps of the three `time.time()` reads (limiter check, breaker
check, failure record).  `or_chat` is the outcome the external OpenRouter
client would produce, passed in as a parameter. -/
def call_llm (t1 t2 t3 : ℚ) (or_chat : Except String String)
    (rl : SimpleRateLimiter) (cb : SimpleCircuitBreaker) : CallLLMResult :=
  let (ok, rl') := rl.allow t1
  if !ok then
    { result := .error .rateLimitExceeded, rl := rl', cb := cb, invoked := false }
  else
    let (adm, cb') := cb.allow_request t2
    if !adm then
      { result := .error .circuitOpenError, rl := rl', cb := cb', invoked := false }
    else
      match or_chat with
      | .ok s =>
          { result := .ok s, rl := rl', cb := cb'.record_success, invoked := true }
      | .error e =>
          { result := .error (.callFailed e), rl := rl',
            cb := cb'.record_failure t3, invoked := true }

/-! ## Flow graph (src/flow.py, create_pr_flow) -/

/-- The nodes instantiated in `create_pr_flow` (src/flow.py lines 37-86),
including the nodes of the guidelines sub-flow. -/
inductive NodeId where
  | engagement
  | brandBibleIngest
  | voiceAlignment
  | guidelinesBatch
  | contentCraftsman
  | styleEditor
  | styleCompliance
  | editCycleReport
  | factValidator
  | brandGuardian
  | authenticityAuditor
  | agencyDirector
  | formatRouter
  | gEmail
  | gInstagram
  | gTwitter
  | gReddit
  | gLinkedin
  | gBlog
  deriving DecidableEq

/-- The action-keyed edges wired in `create_pr_flow` for the outer flow
(src/flow.py lines 74-83).  `a >> b` in pocketflow registers the edge
`(a, "default") -> b`; `a - "act" >> b` registers `(a, "act") -> b`. -/
def prFlowEdges : NodeId → String → Option NodeId
  | .engagement, "default" => some .brandBibleIngest
  | .brandBibleIngest, "default" => some .voiceAlignment
  | .voiceAlignment, "default" => some .guidelinesBatch
  | .guidelinesBatch, "default" => some .contentCraftsman
  | .contentCraftsman, "default" => some .styleEditor
  | .styleEditor, "default" => some .styleCompliance
  | .styleCompliance, "revise" => some .styleEditor
  | .styleCompliance, "max_revisions" => some .editCycleReport
  | .styleCompliance, "pass" => some .factValidator
  | .editCycleReport, "default" => some .factValidator
  | .factValidator, "default" => some .brandGuardian
  | .brandGuardian, "default" => some .authenticityAuditor
  | .authenticityAuditor, "default" => some .agencyDirector
  | _, _ => none

/-- The edges of the guidelines sub-flow (src/flow.py lines 52-61):
the router dispatches on an action equal to the platform string. -/
def guidelinesEdges : NodeId → String → Option NodeId
  | .formatRouter, "email" => some .gEmail
  | .formatRouter, "instagram" => some .gInstagram
  | .formatRouter, "twitter" => some .gTwitter
  | .formatRouter, "x" => some .gTwitter
  | .formatRouter, "reddit" => some .gReddit
  | .formatRouter, "linkedin" => some .gLinkedin
  | .formatRouter, "blog" => some .gBlog
  | _, _ => none

/-- Edge lookup of the flow engine: the `(node, action)` edge, falling back
to the node's `(node, "default")` edge (spec section 4.2).  On this graph
the fallback never fires for the actions the nodes actually return, so this
agrees with the behaviour of the external pocketflow engine. -/
def nextNode (edges : NodeId → String → Option NodeId) (n : NodeId)
    (action : String) : Option NodeId :=
  match edges n action with
  | some n' => some n'
  | none => edges n "default"

/-! ## Revision loop (src/nodes.py, StyleComplianceNode) -/

/-- One draft, an entry of `shared["content_pieces"]`: the per-section map
and the full text (src/nodes.py line 331). -/
structure Piece where
  sections : List (String × String)
  text : String
  deriving DecidableEq

/-- The part of the shared store that the revision loop reads and writes:
`workflow_state` (src/nodes.py lines 104-109). -/
structure WorkflowState where
  current_stage : String
  completed_stages : List String
  revision_count : Nat
  manual_review_required : Bool
  deriving DecidableEq

/-- The shared-store fields `StyleComplianceNode.post` touches. -/
structure LoopShared where
  style_compliance : List (String × List String)
  workflow_state : WorkflowState
  edit_cycle_report : Option String
  deriving DecidableEq

/-- `build_report` (src/utils/report_builder.py): summary of the violation
history plus a snippet of the last draft.  A violation is abstracted to the
string naming it; `build_report` only counts them. -/
def build_report (violations_history : List (List String)) (last_draft : String)
    (platform : String) : String :=
  let hard := (violations_history.map List.length).sum
  let n := violations_history.length
  let lines : List String :=
    [ "Edit cycle reached maximum for " ++ platform ++ ".",
      "Total checks: " ++ toString n ++ "; total issues flagged: " ++
        toString hard ++ ".",
      "Last draft snippet:",
      last_draft.take 240 ++ (if last_draft.length > 240 then "..." else "") ]
  String.intercalate "\n" lines

namespace StyleComplianceNode

/-- What `StyleComplianceNode.prep` extracts from the shared store
(src/nodes.py lines 391-395). -/
structure Prep where
  content : List (String × Piece)
  revision_count : Nat

/-- The record `StyleComplianceNode.exec` returns
(src/nodes.py line 410). -/
structure ExecRes where
  reports : List (String × List String)
  status : String
  revision_count : Nat

/-- `any_viol` of `StyleComplianceNode.exec`: some draft has a non-empty
violation list.  `cv` abstracts `check_style_violations`, the regex
heuristic the spec treats as an external collaborator. -/
def hasViolations (cv : String → List String) (content : List (String × Piece)) :
    Bool :=
  content.any (fun pc => !(cv pc.2.text).isEmpty)

/-- `StyleComplianceNode.exec` (src/nodes.py lines 397-410): check every
draft, and on any violation bump the revision count and choose between
`"revise"` and `"max_revisions"` against the threshold 5. -/
def exec (cv : String → List String) (prep : Prep) : ExecRes :=
  let reports := prep.content.map (fun pc => (pc.1, cv pc.2.text))
  let any_viol := hasViolations cv prep.content
  let new_rev := if any_viol then prep.revision_count + 1 else prep.revision_count
  let status :=
    if any_viol then (if new_rev < 5 then "revise" else "max_revisions")
    else "pass"
  { reports := reports, status := status, revision_count := new_rev }

/-- `StyleComplianceNode.post` (src/nodes.py lines 412-432): store the
reports and the new revision count, build the fallback report and flag
manual review on `"max_revisions"`, set the next stage, append to
`completed_stages`, and return the action.  The progress-stream `emit` on
line 416 only writes to the UI stream and is dropped. -/
def post (content_pieces : List (String × Piece)) (exec_res : ExecRes)
    (shared : LoopShared) : String × LoopShared :=
  let ws := { shared.workflow_state with revision_count := exec_res.revision_count }
  let action := exec_res.status
  let (ws, report) :=
    if action = "max_revisions" then
      let histories := exec_res.reports.map (fun r => r.2)
      let report :=
        match content_pieces.head? with
        | some (p, piece) => build_report histories piece.text p
        | none => build_report histories "" "n/a"
      ({ ws with manual_review_required := true,
                 current_stage := "edit_cycle_report" }, some report)
    else if action = "revise" then
      ({ ws with current_stage := "style_editor" }, shared.edit_cycle_report)
    else
      ({ ws with current_stage := "fact_validator" }, shared.edit_cycle_report)
  let ws := { ws with completed_stages := ws.completed_stages ++ ["style_compliance"] }
  (action,
   { style_compliance := exec_res.reports, workflow_state := ws,
     edit_cycle_report := report })

end StyleComplianceNode

/-! ## Driving the outer flow

The flow engine (external pocketflow) repeatedly runs the current node and
follows the edge selected by the returned action.  For the claims about the
revision loop only `StyleComplianceNode` both reads and writes the fields
that decide routing; every other node of the outer flow returns
`"default"`.  The drafts the compliance check sees on its `k`-th visit are
abstracted as `content k` (the content craftsman writes them and the style
editor rewrites them between visits), and the violation checker as `cv`. -/

/-- Dynamic state threaded through a run: how many compliance evaluations
have happened, plus the shared-store fields of the loop. -/
structure RunState where
  round : Nat
  shared : LoopShared
  deriving DecidableEq

/-- Action and state update of one node execution in the outer flow. -/
def nodeStep (cv : String → List String) (content : Nat → List (String × Piece)) :
    NodeId → RunState → String × RunState
  | .styleCompliance, st =>
      let prep : StyleComplianceNode.Prep :=
        { content := content st.round,
          revision_count := st.shared.workflow_state.revision_count }
      let er := StyleComplianceNode.exec cv prep
      let (action, sh') := StyleComplianceNode.post (content st.round) er st.shared
      (action, { round := st.round + 1, shared := sh' })
  | _, st => ("default", st)

/-- The flow engine's traversal, with `fuel` bounding the number of steps:
record each `(node, action)` pair, follow `nextNode`, stop when no edge
matches.  Returns the trace and the final state. -/
def runFlow (cv : String → List String) (content : Nat → List (String × Piece)) :
    Nat → NodeId → RunState → List (NodeId × String) × RunState
  | 0, _, st => ([], st)
  | fuel + 1, n, st =>
      let (a, st') := nodeStep cv content n st
      match nextNode prFlowEdges n a with
      | some n' =>
          let (tr, fin) := runFlow cv content fuel n' st'
          ((n, a) :: tr, fin)
      | none => ([(n, a)], st')

/-- Number of visits to the compliance stage in a trace. -/
def complianceVisits (tr : List (NodeId × String)) : Nat :=
  tr.countP (fun x => x.1 = .styleCompliance)

/-- The actions the compliance stage emitted along a trace, in order. -/
def complianceActions (tr : List (NodeId × String)) : List String :=
  (tr.filter (fun x => x.1 = .styleCompliance)).map (fun x => x.2)

/-! ## Claims about the revision loop -/

/-- An always-flagging violation checker, used for concrete evaluations. -/
def cvAll : String → List String := fun _ => ["em_dash"]

/-- A single-platform draft set, used for concrete evaluations. -/
def contentOne : Nat → List (String × Piece) := fun _ => [("email", ⟨[], "x"⟩)]

/-- A start state with `revision_count = 0`, used for concrete evaluations. -/
def runStart : RunState :=
  { round := 0,
    shared := { style_compliance := [],
                workflow_state := { current_stage := "engagement",
                                    completed_stages := [],
                                    revision_count := 0,
                                    manual_review_required := false },
                edit_cycle_report := none } }

/-- C1 counterexample: at `revision_count = 4` (strictly below the
threshold 5) with violations present, `StyleComplianceNode.exec` emits
`"max_revisions"`, not `"revise"`, and the router sends control to the
report stage, not back to the edit stage: the claim's guard
`revision_count < 5` is off by one against the code's `new_rev < 5`. -/
theorem revise_guard_claim_counterexample :
    StyleComplianceNode.hasViolations cvAll
      [("email", ⟨[], "x"⟩)] = true ∧
    (4 : Nat) < 5 ∧
    (StyleComplianceNode.exec cvAll
      { content := [("email", ⟨[], "x"⟩)], revision_count := 4 }).status =
        "max_revisions" ∧
    (StyleComplianceNode.exec cvAll
      { content := [("email", ⟨[], "x"⟩)], revision_count := 4 }).status ≠
        "revise" ∧
    nextNode prFlowEdges .styleCompliance
      (StyleComplianceNode.exec cvAll
        { content := [("email", ⟨[], "x"⟩)], revision_count := 4 }).status =
      some .editCycleReport := by
  decide

/-- C1 (amended): when violations are present and the *incremented* count
stays strictly below the threshold 5 (`revision_count + 1 < 5`, i.e.
`revision_count < 4`), the compliance stage increments `revision_count` by
one, emits `"revise"`, and the router sends control back to the edit stage
(`StyleEditorNode`). -/
theorem revise_transition_amended (cv : String → List String)
    (content : List (String × Piece)) (rc : Nat) (sh : LoopShared)
    (hviol : StyleComplianceNode.hasViolations cv content = true)
    (hrc : rc + 1 < 5) :
    (StyleComplianceNode.exec cv { content := content, revision_count := rc }).status
      = "revise" ∧
    (StyleComplianceNode.exec cv { content := content, revision_count := rc }).revision_count
      = rc + 1 ∧
    (StyleComplianceNode.post content
        (StyleComplianceNode.exec cv { content := content, revision_count := rc }) sh).1
      = "revise" ∧
    (StyleComplianceNode.post content
        (StyleComplianceNode.exec cv { content := content, revision_count := rc })
        sh).2.workflow_state.revision_count = rc + 1 ∧
    (StyleComplianceNode.post content
        (StyleComplianceNode.exec cv { content := content, revision_count := rc })
        sh).2.workflow_state.current_stage = "style_editor" ∧
    nextNode prFlowEdges .styleCompliance "revise" = some .styleEditor := by
  simp only [StyleComplianceNode.exec, StyleComplianceNode.post, hviol]
  simp [hrc, nextNode, prFlowEdges]

/-- Witness for `revise_transition_amended` at a concrete input. -/
theorem revise_transition_amended_witness :
    (StyleComplianceNode.exec cvAll
      { content := [("email", ⟨[], "x"⟩)], revision_count := 0 }).status
      = "revise" ∧
    nextNode prFlowEdges .styleCompliance "revise" = some .styleEditor := by
  have h := revise_transition_amended cvAll [("email", ⟨[], "x"⟩)] 0
    runStart.shared (by decide) (by decide)
  exact ⟨h.1, h.2.2.2.2.2⟩

/-- The nodes of the outer flow from which the compliance stage can still
be reached (the linear prefix plus the two loop nodes). -/
def inLoop : NodeId → Bool
  | .engagement | .brandBibleIngest | .voiceAlignment | .guidelinesBatch
  | .contentCraftsman | .styleEditor | .styleCompliance => true
  | _ => false

/-- Bound on the remaining compliance visits from a node, as a function of
the current revision count. -/
def loopBound (n : NodeId) (rc : Nat) : Nat :=
  if inLoop n then 5 - min rc 4 else 0

/-- Unfolding lemma: a trace step contributes one visit exactly when the
executed node is the compliance stage. -/
theorem complianceVisits_cons (x : NodeId × String) (tr : List (NodeId × String)) :
    complianceVisits (x :: tr) =
      complianceVisits tr + (if x.1 = .styleCompliance then 1 else 0) := by
  by_cases h : x.1 = .styleCompliance <;>
    simp [complianceVisits, List.countP_cons, h]

/-- Core termination lemma for the revision loop: from any node and any
state, the number of future compliance visits is bounded by `loopBound`. -/
theorem complianceVisits_le_loopBound (cv : String → List String)
    (content : Nat → List (String × Piece)) :
    ∀ fuel n st, complianceVisits (runFlow cv content fuel n st).1 ≤
      loopBound n st.shared.workflow_state.revision_count := by
  intro fuel
  induction fuel with
  | zero => intro n st; simp [runFlow, complianceVisits]
  | succ fuel ih =>
    intro n st
    cases n with
    | styleCompliance =>
        set rc := st.shared.workflow_state.revision_count with hrc
        by_cases hv : StyleComplianceNode.hasViolations cv (content st.round) = true
        · by_cases hlt : rc + 1 < 5
          · have step :
                nodeStep cv content .styleCompliance st =
                  ("revise",
                   { round := st.round + 1,
                     shared := (StyleComplianceNode.post (content st.round)
                       (StyleComplianceNode.exec cv
                         { content := content st.round, revision_count := rc }) st.shared).2 }) := by
              simp only [nodeStep, StyleComplianceNode.post, StyleComplianceNode.exec,
                hv, ← hrc]
              simp [hlt]
            have hrc' :
                ((StyleComplianceNode.post (content st.round)
                  (StyleComplianceNode.exec cv
                    { content := content st.round, revision_count := rc })
                  st.shared).2).workflow_state.revision_count = rc + 1 := by
              simp only [StyleComplianceNode.post, StyleComplianceNode.exec, hv]
              simp [hlt]
            simp only [runFlow, step, nextNode, prFlowEdges, complianceVisits_cons]
            have htail := ih .styleEditor
              { round := st.round + 1,
                shared := (StyleComplianceNode.post (content st.round)
                  (StyleComplianceNode.exec cv
                    { content := content st.round, revision_count := rc }) st.shared).2 }
            rw [hrc'] at htail
            have htail2 : complianceVisits (runFlow cv content fuel .styleEditor
              { round := st.round + 1,
                shared := (StyleComplianceNode.post (content st.round)
                  (StyleComplianceNode.exec cv
                    { content := content st.round, revision_count := rc }) st.shared).2 }).1
                ≤ 5 - min (rc + 1) 4 := htail
            show complianceVisits _ + 1 ≤ 5 - min rc 4
            omega
          · have step :
                (nodeStep cv content .styleCompliance st).1 = "max_revisions" := by
              simp only [nodeStep, StyleComplianceNode.post, StyleComplianceNode.exec,
                hv, ← hrc]
              simp [hlt]
            simp only [runFlow]
            rw [show (nodeStep cv content NodeId.styleCompliance st).1 = "max_revisions" from step]
            simp only [nextNode, prFlowEdges, complianceVisits_cons]
            have htail2 : complianceVisits (runFlow cv content fuel .editCycleReport
                (nodeStep cv content .styleCompliance st).2).1 ≤ 0 :=
              ih .editCycleReport (nodeStep cv content .styleCompliance st).2
            show complianceVisits _ + 1 ≤ 5 - min rc 4
            omega
        · have step : (nodeStep cv content .styleCompliance st).1 = "pass" := by
            simp only [nodeStep, StyleComplianceNode.post, StyleComplianceNode.exec]
            simp [Bool.not_eq_true] at hv
            simp [hv]
          simp only [runFlow]
          rw [show (nodeStep cv content NodeId.styleCompliance st).1 = "pass" from step]
          simp only [nextNode, prFlowEdges, complianceVisits_cons]
          have htail2 : complianceVisits (runFlow cv content fuel .factValidator
              (nodeStep cv content .styleCompliance st).2).1 ≤ 0 :=
            ih .factValidator (nodeStep cv content .styleCompliance st).2
          show complianceVisits _ + 1 ≤ 5 - min rc 4
          omega
    | engagement =>
        simp only [runFlow, nodeStep, nextNode, prFlowEdges, complianceVisits_cons]
        simp only [reduceCtorEq, if_false, add_zero]
        exact ih .brandBibleIngest st
    | brandBibleIngest =>
        simp only [runFlow, nodeStep, nextNode, prFlowEdges, complianceVisits_cons]
        simp only [reduceCtorEq, if_false, add_zero]
        exact ih .voiceAlignment st
    | voiceAlignment =>
        simp only [runFlow, nodeStep, nextNode, prFlowEdges, complianceVisits_cons]
        simp only [reduceCtorEq, if_false, add_zero]
        exact ih .guidelinesBatch st
    | guidelinesBatch =>
        simp only [runFlow, nodeStep, nextNode, prFlowEdges, complianceVisits_cons]
        simp only [reduceCtorEq, if_false, add_zero]
        exact ih .contentCraftsman st
    | contentCraftsman =>
        simp only [runFlow, nodeStep, nextNode, prFlowEdges, complianceVisits_cons]
        simp only [reduceCtorEq, if_false, add_zero]
        exact ih .styleEditor st
    | styleEditor =>
        simp only [runFlow, nodeStep, nextNode, prFlowEdges, complianceVisits_cons]
        simp only [reduceCtorEq, if_false, add_zero]
        exact ih .styleCompliance st
    | editCycleReport =>
        simp only [runFlow, nodeStep, nextNode, prFlowEdges, complianceVisits_cons]
        simp only [reduceCtorEq, if_false, add_zero]
        exact ih .factValidator st
    | factValidator =>
        simp only [runFlow, nodeStep, nextNode, prFlowEdges, complianceVisits_cons]
        simp only [reduceCtorEq, if_false, add_zero]
        exact ih .brandGuardian st
    | brandGuardian =>
        simp only [runFlow, nodeStep, nextNode, prFlowEdges, complianceVisits_cons]
        simp only [reduceCtorEq, if_false, add_zero]
        exact ih .authenticityAuditor st
    | authenticityAuditor =>
        simp only [runFlow, nodeStep, nextNode, prFlowEdges, complianceVisits_cons]
        simp only [reduceCtorEq, if_false, add_zero]
        exact ih .agencyDirector st
    | agencyDirector =>
        simp [runFlow, nodeStep, nextNode, prFlowEdges, complianceVisits, loopBound, inLoop]
    | formatRouter =>
        simp [runFlow, nodeStep, nextNode, prFlowEdges, complianceVisits, loopBound, inLoop]
    | gEmail =>
        simp [runFlow, nodeStep, nextNode, prFlowEdges, complianceVisits, loopBound, inLoop]
    | gInstagram =>
        simp [runFlow, nodeStep, nextNode, prFlowEdges, complianceVisits, loopBound, inLoop]
    | gTwitter =>
        simp [runFlow, nodeStep, nextNode, prFlowEdges, complianceVisits, loopBound, inLoop]
    | gReddit =>
        simp [runFlow, nodeStep, nextNode, prFlowEdges, complianceVisits, loopBound, inLoop]
    | gLinkedin =>
        simp [runFlow, nodeStep, nextNode, prFlowEdges, complianceVisits, loopBound, inLoop]
    | gBlog =>
        simp [runFlow, nodeStep, nextNode, prFlowEdges, complianceVisits, loopBound, inLoop]

/-- C2: for the threshold k = 5 of this program, the compliance stage is
executed at most k + 1 = 6 times in any run of the outer flow, from any
starting revision count, for any step budget and any behaviour of the
violation checker and of the evolving drafts. -/
theorem compliance_stage_visited_at_most_six (cv : String → List String)
    (content : Nat → List (String × Piece)) (fuel : Nat) (st : RunState) :
    complianceVisits (runFlow cv content fuel .engagement st).1 ≤ 5 + 1 := by
  have h : complianceVisits (runFlow cv content fuel .engagement st).1 ≤
      5 - min st.shared.workflow_state.revision_count 4 :=
    complianceVisits_le_loopBound cv content fuel .engagement st
  omega

/-- C3: in a run starting with `revision_count = 0` in which every
compliance evaluation finds at least one violation, the compliance stage
emits `"revise"` four times and then `"max_revisions"`, the run ends with
`manual_review_required = true` and `revision_count = 5`, the fallback
report is built by `build_report` from the last evaluation's violation
reports and the last draft, and after the escalation the flow visits the
report stage (`EditCycleReportNode`), never the edit stage again. -/
theorem always_violating_run_escalates (cv : String → List String)
    (content : Nat → List (String × Piece))
    (h : ∀ r, StyleComplianceNode.hasViolations cv (content r) = true) :
    complianceActions (runFlow cv content 20 .engagement runStart).1 =
      ["revise", "revise", "revise", "revise", "max_revisions"] ∧
    (runFlow cv content 20 .engagement
        runStart).2.shared.workflow_state.manual_review_required = true ∧
    (runFlow cv content 20 .engagement
        runStart).2.shared.workflow_state.revision_count = 5 ∧
    (runFlow cv content 20 .engagement runStart).2.shared.edit_cycle_report =
      some (match (content 4).head? with
            | some (p, piece) =>
                build_report ((content 4).map (fun pc => cv pc.2.text)) piece.text p
            | none =>
                build_report ((content 4).map (fun pc => cv pc.2.text)) "" "n/a") ∧
    (runFlow cv content 20 .engagement runStart).1.map Prod.fst =
      [.engagement, .brandBibleIngest, .voiceAlignment, .guidelinesBatch,
       .contentCraftsman, .styleEditor, .styleCompliance, .styleEditor,
       .styleCompliance, .styleEditor, .styleCompliance, .styleEditor,
       .styleCompliance, .styleEditor, .styleCompliance, .editCycleReport,
       .factValidator, .brandGuardian, .authenticityAuditor, .agencyDirector] := by
  refine ⟨?_, ?_, ?_, ?_, ?_⟩ <;>
    simp [runFlow, nodeStep, nextNode, prFlowEdges, complianceActions, runStart,
      StyleComplianceNode.exec, StyleComplianceNode.post, h]
  cases hc : (content 4).head? with
  | none => rfl
  | some x => cases x with
    | mk p piece => rfl

/-- Witness for `always_violating_run_escalates` on a concrete
always-violating checker and a concrete single-platform draft. -/
theorem always_violating_run_escalates_witness :
    complianceActions (runFlow cvAll contentOne 20 .engagement runStart).1 =
      ["revise", "revise", "revise", "revise", "max_revisions"] ∧
    (runFlow cvAll contentOne 20 .engagement
        runStart).2.shared.workflow_state.manual_review_required = true :=
  ⟨(always_violating_run_escalates cvAll contentOne (fun _ => rfl)).1,
   (always_violating_run_escalates cvAll contentOne (fun _ => rfl)).2.1⟩

/-! ## Guidelines BatchFlow (src/flow.py FormatGuidelinesBatch,
src/nodes.py FormatGuidelinesRouter and the guideline nodes)

`FormatGuidelinesBatch.prep` returns one parameter set `{"platform": p}`
per requested platform; for each, the engine runs the inner sub-flow
(router, then the per-platform guideline node, which writes
`shared["platform_guidelines"][platform_name]`).  `build_guidelines` is an
external collaborator, abstracted as `bg`; its output type is abstracted
as `G`. -/

/-- Python `str.lower()` on a string, character by character.  (Stated over
the character list so that it evaluates inside the kernel; Lean's own
`String.toLower` computes the same letters through a byte-position loop.) -/
def pyLower (s : String) : String := String.mk (s.data.map Char.toLower)

/-- `FormatGuidelinesRouter.post` (src/nodes.py lines 213-216): lower-case
the bound platform parameter and return it as the action (`"default"` when
the parameter is missing or empty, matching Python's `platform or
"default"`). -/
def FormatGuidelinesRouter.post (platform_param : String) : String :=
  let platform := pyLower platform_param
  if platform = "" then "default" else platform

/-- The `platform_name` class attribute of the guideline nodes
(src/nodes.py lines 244-265); note the `"x"`-routed node writes
`"twitter"`. -/
def platformName : NodeId → Option String
  | .gEmail => some "email"
  | .gInstagram => some "instagram"
  | .gTwitter => some "twitter"
  | .gReddit => some "reddit"
  | .gLinkedin => some "linkedin"
  | .gBlog => some "blog"
  | _ => none

/-- Python dict assignment `m[k] = v` on an association list: replace the
existing binding or append a new one. -/
def insertA {G : Type} : List (String × G) → String → G → List (String × G)
  | [], k, v => [(k, v)]
  | (k', v') :: rest, k, v =>
      if k' = k then (k, v) :: rest else (k', v') :: insertA rest k v

/-- Dict lookup on an association list. -/
def lookupA {G : Type} : List (String × G) → String → Option G
  | [], _ => none
  | (k', v') :: rest, k => if k' = k then some v' else lookupA rest k

/-- The keys of an association list. -/
def keysA {G : Type} (m : List (String × G)) : List String := m.map (fun kv => kv.1)

/-- One BatchFlow iteration for parameter `p`: the router emits the action
`FormatGuidelinesRouter.post p`; if an edge of the sub-flow matches, the
target guideline node runs and writes its own `platform_name` key
(`_BaseGuidelinesNode.post`, src/nodes.py lines 238-241); otherwise the
sub-flow ends without writing. -/
def batchIter {G : Type} (bg : String → G) (m : List (String × G)) (p : String) :
    List (String × G) :=
  match nextNode guidelinesEdges .formatRouter (FormatGuidelinesRouter.post p) with
  | some node =>
      match platformName node with
      | some name => insertA m name (bg name)
      | none => m
  | none => m

/-- The whole guidelines BatchFlow over the requested platform list `P`,
starting from the empty `platform_guidelines` map that
`EngagementManagerNode.post` installed (src/nodes.py line 101). -/
def runBatch {G : Type} (bg : String → G) (P : List String) : List (String × G) :=
  P.foldl (batchIter bg) []

/-- The platform actions the sub-flow router has edges for, minus the
alias `"x"` (whose node writes the key `"twitter"`, not `"x"`). -/
def supportedPlatforms : List String :=
  ["email", "instagram", "twitter", "reddit", "linkedin", "blog"]

/-- Lookup after a dict write: the written key reads back the new value,
every other key is untouched. -/
theorem lookupA_insertA {G : Type} (m : List (String × G)) (k q : String) (v : G) :
    lookupA (insertA m k v) q = if k = q then some v else lookupA m q := by
  induction m with
  | nil => simp [insertA, lookupA]
  | cons kv rest ih =>
      by_cases h : kv.1 = k
      · cases kv
        simp_all [insertA, lookupA]
      · cases kv with
        | mk k' v' =>
          simp only [insertA, lookupA, if_neg h]
          by_cases hq : k' = q
          · subst hq
            have : ¬ k = k' := fun hc => h hc.symm
            simp [lookupA, this, ih]
          · simp [lookupA, hq, ih]

/-- Membership in the keys after a dict write. -/
theorem mem_keysA_insertA {G : Type} (m : List (String × G)) (k q : String) (v : G) :
    q ∈ keysA (insertA m k v) ↔ q = k ∨ q ∈ keysA m := by
  induction m with
  | nil => simp [insertA, keysA]
  | cons kv rest ih =>
      cases kv with
      | mk k' v' =>
        by_cases hk : k' = k
        · subst hk
          simp [insertA, keysA]
        · simp [insertA, hk, keysA] at ih ⊢
          tauto

/-- Dict writes preserve distinctness of the keys. -/
theorem keysA_insertA_nodup {G : Type} (m : List (String × G)) (k : String) (v : G)
    (h : (keysA m).Nodup) : (keysA (insertA m k v)).Nodup := by
  induction m with
  | nil => simp [insertA, keysA]
  | cons kv rest ih =>
      cases kv with
      | mk k' v' =>
        by_cases hk : k' = k
        · subst hk
          simpa [insertA, keysA] using h
        · simp only [keysA, List.map_cons, List.nodup_cons] at h
          obtain ⟨hk', hrest⟩ := h
          have hrest' := ih hrest
          simp only [insertA, if_neg hk, keysA, List.map_cons, List.nodup_cons]
          refine ⟨?_, hrest'⟩
          rw [show List.map (fun kv => kv.1) (insertA rest k v) = keysA (insertA rest k v) from rfl,
            mem_keysA_insertA]
          rintro (rfl | hmem)
          · exact hk rfl
          · exact hk' hmem

/-- A supported, lower-case platform parameter makes the iteration write
exactly its own key. -/
theorem batchIter_supported {G : Type} (bg : String → G) (m : List (String × G))
    (p : String) (hp : p ∈ supportedPlatforms) :
    batchIter bg m p = insertA m p (bg p) := by
  simp only [supportedPlatforms, List.mem_cons, List.mem_singleton] at hp
  rcases hp with rfl | rfl | rfl | rfl | rfl | rfl | h
  · rfl
  · rfl
  · rfl
  · rfl
  · rfl
  · rfl
  · simp at h

/-- Lookup characterization of the batch merge, generalized over the
starting map. -/
theorem lookupA_foldl_batchIter {G : Type} (bg : String → G) :
    ∀ (P : List String) (m : List (String × G)) (q : String),
      (∀ p ∈ P, p ∈ supportedPlatforms) →
      lookupA (P.foldl (batchIter bg) m) q =
        if q ∈ P then some (bg q) else lookupA m q := by
  intro P
  induction P with
  | nil => intro m q _; simp
  | cons p P' ih =>
      intro m q hP
      have hp : p ∈ supportedPlatforms := hP p (by simp)
      have hP' : ∀ r ∈ P', r ∈ supportedPlatforms := fun r hr => hP r (by simp [hr])
      simp only [List.foldl_cons, batchIter_supported bg m p hp]
      rw [ih (insertA m p (bg p)) q hP']
      rw [lookupA_insertA]
      by_cases hq : q ∈ P'
      · simp [hq]
      · by_cases hqp : p = q
        · subst hqp
          simp [hq]
        · have hnq : ¬ q ∈ (p :: P') := by
            simp [hq, Ne.symm hqp]
          simp [hq, hqp, hnq]

/-- Keys of the batch merge stay distinct, generalized over the starting
map. -/
theorem keysA_foldl_batchIter_nodup {G : Type} (bg : String → G) :
    ∀ (P : List String) (m : List (String × G)),
      (∀ p ∈ P, p ∈ supportedPlatforms) → (keysA m).Nodup →
      (keysA (P.foldl (batchIter bg) m)).Nodup := by
  intro P
  induction P with
  | nil => intro m _ hm; simpa
  | cons p P' ih =>
      intro m hP hm
      have hp : p ∈ supportedPlatforms := hP p (by simp)
      have hP' : ∀ r ∈ P', r ∈ supportedPlatforms := fun r hr => hP r (by simp [hr])
      simp only [List.foldl_cons, batchIter_supported bg m p hp]
      exact ih (insertA m p (bg p)) hP' (keysA_insertA_nodup m p (bg p) hm)

/-- C4 counterexample: for the requested platform list `P = ["x"]` the
claim fails — the merged map has no entry keyed `"x"`; the `"x"` iteration
routes to the Twitter guideline node, which writes the key `"twitter"`. -/
theorem guidelines_batch_merge_counterexample :
    lookupA (runBatch (fun p => p) ["x"]) "x" = none ∧
    keysA (runBatch (fun p => p) ["x"]) = ["twitter"] := by
  decide

/-- C4 (amended): for a requested platform list `P` whose entries are
lower-case supported platform names (excluding the alias `"x"`), the
merged `platform_guidelines` map binds exactly the platforms of `P` (each
to its own guideline object, each key once) and nothing else, and the
result of the merge does not depend on the order of the iterations. -/
theorem guidelines_batch_merge_amended {G : Type} (bg : String → G)
    (P : List String) (hP : ∀ p ∈ P, p ∈ supportedPlatforms) :
    (∀ q, lookupA (runBatch bg P) q = if q ∈ P then some (bg q) else none) ∧
    (keysA (runBatch bg P)).Nodup ∧
    (∀ P', P.Perm P' →
      ∀ q, lookupA (runBatch bg P') q = lookupA (runBatch bg P) q) := by
  refine ⟨fun q => ?_, ?_, fun P' hperm q => ?_⟩
  · rw [runBatch, lookupA_foldl_batchIter bg P [] q hP]
    simp [lookupA]
  · exact keysA_foldl_batchIter_nodup bg P [] hP (by simp [keysA])
  · have hP'' : ∀ p ∈ P', p ∈ supportedPlatforms :=
      fun p hp => hP p (hperm.mem_iff.mpr hp)
    rw [runBatch, runBatch, lookupA_foldl_batchIter bg P [] q hP,
      lookupA_foldl_batchIter bg P' [] q hP'']
    simp [hperm.mem_iff]

/-- Witness for `guidelines_batch_merge_amended` on the repository's
default platform list `["email", "linkedin"]`. -/
theorem guidelines_batch_merge_amended_witness :
    lookupA (runBatch (fun p => p) ["email", "linkedin"]) "email" = some "email" ∧
    lookupA (runBatch (fun p => p) ["email", "linkedin"]) "twitter" = none := by
  have h := guidelines_batch_merge_amended (fun p => p) ["email", "linkedin"]
    (by decide)
  have h1 := h.1 "email"
  have h2 := h.1 "twitter"
  simp only [List.mem_cons, List.mem_singleton] at h1 h2
  simp at h1 h2
  exact ⟨h1, h2⟩

/-! ## Claims about the resilience wrapper -/

/-- A sequence of consecutive `record_failure` calls at the given
timestamps. -/
def recordFailures (ts : List ℚ) (cb : SimpleCircuitBreaker) :
    SimpleCircuitBreaker :=
  ts.foldl (fun c t => c.record_failure t) cb

/-- `record_failure` always increments the consecutive-failure counter. -/
theorem record_failure_failures (t : ℚ) (cb : SimpleCircuitBreaker) :
    (cb.record_failure t).failures = cb.failures + 1 := by
  simp only [SimpleCircuitBreaker.record_failure]
  split <;> rfl

/-- `record_failure` never changes the configured threshold. -/
theorem record_failure_threshold (t : ℚ) (cb : SimpleCircuitBreaker) :
    (cb.record_failure t).failure_threshold = cb.failure_threshold := by
  simp only [SimpleCircuitBreaker.record_failure]
  split <;> rfl

/-- Enough consecutive failures always leave the breaker open. -/
theorem recordFailures_state_opened :
    ∀ (ts : List ℚ) (cb : SimpleCircuitBreaker), ts ≠ [] →
      cb.failure_threshold ≤ cb.failures + ts.length →
      (recordFailures ts cb).state = .opened := by
  intro ts
  induction ts with
  | nil => intro cb h _; exact absurd rfl h
  | cons t ts' ih =>
      intro cb _ hge
      by_cases hts : ts' = []
      · subst hts
        simp only [recordFailures, List.foldl_cons, List.foldl_nil,
          SimpleCircuitBreaker.record_failure]
        rw [if_pos (by simp; simp at hge; omega)]
      · have h2 : (cb.record_failure t).failure_threshold ≤
            (cb.record_failure t).failures + ts'.length := by
          rw [record_failure_failures, record_failure_threshold]
          simp at hge
          omega
        simpa [recordFailures] using ih (cb.record_failure t) hts h2

/-- While the breaker is open and the open window has not yet elapsed,
`allow_request` rejects without touching the state. -/
theorem allow_request_opened_early (now : ℚ) (cb : SimpleCircuitBreaker)
    (hs : cb.state = .opened) (ht : now - cb.opened_at < cb.open_duration_s) :
    cb.allow_request now = (false, cb) := by
  simp [SimpleCircuitBreaker.allow_request, hs, not_le.mpr ht]

/-- Once the open window has elapsed, `allow_request` admits the trial and
moves the breaker to half-open. -/
theorem allow_request_opened_late (now : ℚ) (cb : SimpleCircuitBreaker)
    (hs : cb.state = .opened) (ht : cb.open_duration_s ≤ now - cb.opened_at) :
    cb.allow_request now = (true, { cb with state := .half_open }) := by
  simp [SimpleCircuitBreaker.allow_request, hs, ht]

/-- A rejecting `allow_request` never mutates the breaker. -/
theorem allow_request_false_frame (now : ℚ) (cb : SimpleCircuitBreaker)
    (h : (cb.allow_request now).1 = false) : (cb.allow_request now).2 = cb := by
  cases hs : cb.state with
  | closed => simp [SimpleCircuitBreaker.allow_request, hs] at h
  | opened =>
      by_cases ht : cb.open_duration_s ≤ now - cb.opened_at
      · rw [allow_request_opened_late now cb hs ht] at h
        simp at h
      · rw [allow_request_opened_early now cb hs (not_le.mp ht)]
  | half_open => simp [SimpleCircuitBreaker.allow_request, hs] at h

/-- `record_success` always leaves the breaker closed. -/
theorem record_success_state (cb : SimpleCircuitBreaker) :
    cb.record_success.state = .closed := by
  simp only [SimpleCircuitBreaker.record_success]
  split
  · rfl
  · rename_i hc
    simpa using hc

/-- `record_success` never changes the configured threshold. -/
theorem record_success_threshold (cb : SimpleCircuitBreaker) :
    cb.record_success.failure_threshold = cb.failure_threshold := by
  simp only [SimpleCircuitBreaker.record_success]
  split <;> rfl

/-- Breaker states reachable through the wrapper's own operations from a
freshly constructed breaker with a positive threshold. -/
inductive ReachableCB : SimpleCircuitBreaker → Prop where
  | init (F : Nat) (D : ℚ) (hF : 1 ≤ F) :
      ReachableCB (SimpleCircuitBreaker.init F D)
  | success {cb : SimpleCircuitBreaker} :
      ReachableCB cb → ReachableCB cb.record_success
  | failure {cb : SimpleCircuitBreaker} (t : ℚ) :
      ReachableCB cb → ReachableCB (cb.record_failure t)
  | allow {cb : SimpleCircuitBreaker} (t : ℚ) :
      ReachableCB cb → ReachableCB (cb.allow_request t).2

/-- Invariant of the breaker: the threshold is positive, and away from
`closed` the failure counter has already reached the threshold (so one
more failure re-opens the breaker). -/
theorem reachableCB_invariant {cb : SimpleCircuitBreaker}
    (h : ReachableCB cb) :
    1 ≤ cb.failure_threshold ∧
      (cb.state ≠ .closed → cb.failure_threshold ≤ cb.failures) := by
  induction h with
  | init F D hF => exact ⟨hF, fun hc => absurd rfl hc⟩
  | @success c hr ih =>
      refine ⟨by rw [record_success_threshold]; exact ih.1, fun hc => ?_⟩
      exact absurd (record_success_state c) hc
  | @failure c t hr ih =>
      constructor
      · rw [record_failure_threshold]
        exact ih.1
      · intro hc
        rw [record_failure_threshold, record_failure_failures]
        by_cases hge : c.failure_threshold ≤ c.failures + 1
        · exact hge
        · exfalso
          have hstate : (c.record_failure t).state = c.state := by
            simp only [SimpleCircuitBreaker.record_failure]
            rw [if_neg (by simpa using hge)]
          rw [hstate] at hc
          have := ih.2 hc
          omega
  | @allow c t hr ih =>
      cases hs : c.state with
      | closed =>
          have heq : c.allow_request t = (true, c) := by
            simp [SimpleCircuitBreaker.allow_request, hs]
          rw [heq]
          exact ih
      | opened =>
          by_cases ht : c.open_duration_s ≤ t - c.opened_at
          · rw [allow_request_opened_late t c hs ht]
            exact ⟨ih.1, fun _ => ih.2 (by simp [hs])⟩
          · rw [allow_request_opened_early t c hs (not_le.mp ht)]
            exact ih
      | half_open =>
          have heq : c.allow_request t = (true, c) := by
            simp [SimpleCircuitBreaker.allow_request, hs]
          rw [heq]
          exact ih

/-- C5: the circuit breaker lifecycle, for any threshold `F ≥ 1` and open
duration `D`.  (a) `F` consecutive failures starting from a zeroed counter
open the breaker; (b) while open and strictly less than `D` after the
transition, a wrapped call fails fast with the circuit-open error, the
underlying call is not invoked, and the breaker is untouched; (c) the
first `allow_request` at least `D` after the transition is admitted and
moves the breaker to half-open; (d) recording the trial's success closes
the breaker and resets the failure counter; (e) recording the trial's
failure (from any reachable half-open state) re-opens the breaker with the
timer restarted at the failure's timestamp. -/
theorem circuit_breaker_lifecycle (F : Nat) (D : ℚ) (hF : 1 ≤ F) :
    (∀ (ts : List ℚ) (cb : SimpleCircuitBreaker),
       cb.failure_threshold = F → cb.failures = 0 → ts.length = F →
       (recordFailures ts cb).state = .opened) ∧
    (∀ (t1 t2 t3 : ℚ) (u : Except String String) (rl : SimpleRateLimiter)
       (cb : SimpleCircuitBreaker),
       cb.state = .opened → cb.open_duration_s = D → t2 - cb.opened_at < D →
       (SimpleRateLimiter.allow t1 rl).1 = true →
       (call_llm t1 t2 t3 u rl cb).result = .error .circuitOpenError ∧
       (call_llm t1 t2 t3 u rl cb).invoked = false ∧
       (call_llm t1 t2 t3 u rl cb).cb = cb) ∧
    (∀ (now : ℚ) (cb : SimpleCircuitBreaker),
       cb.state = .opened → cb.open_duration_s = D → D ≤ now - cb.opened_at →
       cb.allow_request now = (true, { cb with state := .half_open })) ∧
    (∀ cb : SimpleCircuitBreaker,
       cb.record_success.state = .closed ∧ cb.record_success.failures = 0) ∧
    (∀ (now : ℚ) (cb : SimpleCircuitBreaker),
       ReachableCB cb → cb.state = .half_open →
       (cb.record_failure now).state = .opened ∧
       (cb.record_failure now).opened_at = now) := by
  refine ⟨?_, ?_, ?_, ?_, ?_⟩
  · intro ts cb hth hz hlen
    apply recordFailures_state_opened ts cb
    · intro hnil
      rw [hnil] at hlen
      simp at hlen
      omega
    · rw [hth, hz, hlen]
      omega
  · intro t1 t2 t3 u rl cb hs hD ht hrl
    have hreq : cb.allow_request t2 = (false, cb) :=
      allow_request_opened_early t2 cb hs (by rw [hD]; exact ht)
    rcases h1 : SimpleRateLimiter.allow t1 rl with ⟨ok, rl'⟩
    rw [h1] at hrl
    simp at hrl
    subst hrl
    simp [call_llm, h1, hreq]
  · intro now cb hs hD ht
    exact allow_request_opened_late now cb hs (by rw [hD]; exact ht)
  · intro cb
    refine ⟨record_success_state cb, ?_⟩
    simp only [SimpleCircuitBreaker.record_success]
    split <;> rfl
  · intro now cb hr hs
    have hinv := (reachableCB_invariant hr).2 (by simp [hs])
    have hopen : cb.failure_threshold ≤ cb.failures + 1 := by omega
    constructor <;>
      · simp only [SimpleCircuitBreaker.record_failure]
        rw [if_pos (by simpa using hopen)]

/-- Witness for `circuit_breaker_lifecycle` with `F = 1`, `D = 30`:
one failure at time 0 opens the breaker; the trial admitted at time 30
reaches half-open; a failure of the trial at time 45 re-opens the breaker
with the timer restarted at 45. -/
theorem circuit_breaker_lifecycle_witness :
    (recordFailures [0] (SimpleCircuitBreaker.init 1 30)).state = .opened ∧
    ((((SimpleCircuitBreaker.init 1 30).record_failure 0).allow_request
        30).2.record_failure 45).state = .opened ∧
    ((((SimpleCircuitBreaker.init 1 30).record_failure 0).allow_request
        30).2.record_failure 45).opened_at = 45 := by
  have h := circuit_breaker_lifecycle 1 30 (by norm_num)
  have hreach : ReachableCB
      (((SimpleCircuitBreaker.init 1 30).record_failure 0).allow_request 30).2 :=
    ReachableCB.allow 30 (ReachableCB.failure 0
      (ReachableCB.init 1 30 (by norm_num)))
  have hcb1 : ((SimpleCircuitBreaker.init 1 30).record_failure 0).state = .opened ∧
      ((SimpleCircuitBreaker.init 1 30).record_failure 0).opened_at = 0 ∧
      ((SimpleCircuitBreaker.init 1 30).record_failure 0).open_duration_s = 30 := by
    simp [SimpleCircuitBreaker.init, SimpleCircuitBreaker.record_failure]
  have hlate : ((SimpleCircuitBreaker.init 1 30).record_failure 0).allow_request 30 =
      (true, { (SimpleCircuitBreaker.init 1 30).record_failure 0 with
               state := .half_open }) :=
    allow_request_opened_late 30 _ hcb1.1
      (by rw [hcb1.2.2, hcb1.2.1]; norm_num)
  have hhalf : ((((SimpleCircuitBreaker.init 1 30).record_failure
      0).allow_request 30).2).state = .half_open := by rw [hlate]
  have hfail := h.2.2.2.2 45 _ hreach hhalf
  exact ⟨h.1 [0] (SimpleCircuitBreaker.init 1 30) rfl rfl rfl,
    hfail.1, hfail.2⟩

/-- A sequence of `allow` calls at the given timestamps, collecting each
decision and threading the limiter state. -/
def allowRun : List ℚ → SimpleRateLimiter → List Bool × SimpleRateLimiter
  | [], rl => ([], rl)
  | t :: ts, rl =>
      let p := rl.allow t
      let q := allowRun ts p.2
      (p.1 :: q.1, q.2)

/-- Calls inside the active window are all accepted while the counter has
room, and only bump the counter. -/
theorem allowRun_within :
    ∀ (ts : List ℚ) (rl : SimpleRateLimiter),
      (∀ t ∈ ts, t - rl.window_start < rl.period_s) →
      rl.count + ts.length ≤ rl.max_calls →
      allowRun ts rl = (List.replicate ts.length true,
        { rl with count := rl.count + ts.length }) := by
  intro ts
  induction ts with
  | nil => intro rl _ _; simp [allowRun]
  | cons t ts' ih =>
      intro rl hin hle
      have hw : ¬ (rl.period_s ≤ t - rl.window_start) :=
        not_le.mpr (hin t (by simp))
      have hcnt : rl.count < rl.max_calls := by simp at hle; omega
      have hstep : rl.allow t = (true, { rl with count := rl.count + 1 }) := by
        simp [SimpleRateLimiter.allow, hw, hcnt]
      have hin' : ∀ s ∈ ts',
          s - ({ rl with count := rl.count + 1 } : SimpleRateLimiter).window_start <
            ({ rl with count := rl.count + 1 } : SimpleRateLimiter).period_s :=
        fun s hs => hin s (by simp [hs])
      have hle' : ({ rl with count := rl.count + 1 } : SimpleRateLimiter).count +
          ts'.length ≤
          ({ rl with count := rl.count + 1 } : SimpleRateLimiter).max_calls := by
        simp at hle ⊢
        omega
      simp only [allowRun, hstep]
      rw [ih _ hin' hle']
      have harith : rl.count + 1 + ts'.length = rl.count + (ts'.length + 1) := by
        omega
      simp [List.replicate, harith]

/-- At capacity, inside the active window, `allow` rejects and changes
nothing. -/
theorem allow_rejects_at_capacity (now : ℚ) (rl : SimpleRateLimiter)
    (hcnt : rl.count = rl.max_calls) (hw : now - rl.window_start < rl.period_s) :
    rl.allow now = (false, rl) := by
  simp [SimpleRateLimiter.allow, not_le.mpr hw, hcnt]

/-- Once the window duration has elapsed, `allow` resets the window and
accepts. -/
theorem allow_after_window (now : ℚ) (rl : SimpleRateLimiter)
    (hN : 1 ≤ rl.max_calls) (hw : rl.period_s ≤ now - rl.window_start) :
    rl.allow now = (true, { rl with window_start := now, count := 1 }) := by
  simp only [SimpleRateLimiter.allow, if_pos hw]
  rw [if_pos (by simpa using hN)]

/-- C6: the fixed-window rate limiter with `max_calls = N ≥ 1`,
`period = T`.  (i) starting from a zeroed counter, any `≤ N` calls inside
the active window are all accepted and only advance the counter; (ii) a
call at capacity inside the active window is rejected with the limiter
unchanged; (iii) a rejected `allow` makes `call_llm` fail immediately with
the rate-limit error, without invoking the underlying call; (iv) once `T`
has elapsed since the window start, the next call resets the window and is
accepted. -/
theorem rate_limiter_window (N : Nat) (T : ℚ) (hN : 1 ≤ N) :
    (∀ (ts : List ℚ) (rl : SimpleRateLimiter),
       rl.max_calls = N → rl.period_s = T → rl.count = 0 →
       (∀ t ∈ ts, t - rl.window_start < T) → ts.length ≤ N →
       allowRun ts rl =
         (List.replicate ts.length true, { rl with count := ts.length })) ∧
    (∀ (now : ℚ) (rl : SimpleRateLimiter),
       rl.max_calls = N → rl.period_s = T → rl.count = N →
       now - rl.window_start < T → rl.allow now = (false, rl)) ∧
    (∀ (t1 t2 t3 : ℚ) (u : Except String String) (rl : SimpleRateLimiter)
       (cb : SimpleCircuitBreaker),
       (SimpleRateLimiter.allow t1 rl).1 = false →
       (call_llm t1 t2 t3 u rl cb).result = .error .rateLimitExceeded ∧
       (call_llm t1 t2 t3 u rl cb).invoked = false) ∧
    (∀ (now : ℚ) (rl : SimpleRateLimiter),
       rl.max_calls = N → rl.period_s = T → T ≤ now - rl.window_start →
       rl.allow now = (true, { rl with window_start := now, count := 1 })) := by
  refine ⟨?_, ?_, ?_, ?_⟩
  · intro ts rl hmax hper hz hin hlen
    have := allowRun_within ts rl (by rw [hper]; exact hin)
      (by rw [hmax, hz]; omega)
    rw [this, hz]
    simp
  · intro now rl hmax hper hcnt hw
    exact allow_rejects_at_capacity now rl (by rw [hcnt, hmax])
      (by rw [hper]; exact hw)
  · intro t1 t2 t3 u rl cb hfail
    rcases h1 : SimpleRateLimiter.allow t1 rl with ⟨ok, rl'⟩
    rw [h1] at hfail
    simp at hfail
    subst hfail
    simp [call_llm, h1]
  · intro now rl hmax hper hw
    exact allow_after_window now rl (by rw [hmax]; exact hN)
      (by rw [hper]; exact hw)

/-- Witness for `rate_limiter_window` with `N = 2`, `T = 1`: two calls at
time 0 are accepted, the third call at time 0 is rejected unchanged, and a
call at time 5 resets the window and is accepted. -/
theorem rate_limiter_window_witness :
    allowRun [0, 0] (SimpleRateLimiter.init 2 1 0) =
      ([true, true],
       { max_calls := 2, period_s := 1, window_start := 0, count := 2 }) ∧
    SimpleRateLimiter.allow 0
      { max_calls := 2, period_s := 1, window_start := 0, count := 2 } =
      (false, { max_calls := 2, period_s := 1, window_start := 0, count := 2 }) ∧
    SimpleRateLimiter.allow 5
      { max_calls := 2, period_s := 1, window_start := 0, count := 2 } =
      (true, { max_calls := 2, period_s := 1, window_start := 5, count := 1 }) := by
  have h := rate_limiter_window 2 1 (by norm_num)
  have hin : ∀ t ∈ ([0, 0] : List ℚ),
      t - (SimpleRateLimiter.init 2 1 0).window_start < 1 := by
    intro t ht
    simp [SimpleRateLimiter.init] at ht ⊢
    rcases ht with rfl | rfl
    all_goals norm_num
  refine ⟨?_, ?_, ?_⟩
  · have := h.1 [0, 0] (SimpleRateLimiter.init 2 1 0) rfl rfl rfl hin (by norm_num)
    simpa [SimpleRateLimiter.init] using this
  · exact h.2.1 0 _ rfl rfl rfl (by norm_num)
  · exact h.2.2.2 5 _ rfl rfl (by norm_num)

/-- The breaker state reached by: one failure at time 0 (threshold 1)
opening the breaker, then the trial admission at time 30 moving it to
half-open. -/
def cbHalfOpen : SimpleCircuitBreaker :=
  (((SimpleCircuitBreaker.init 1 30).record_failure 0).allow_request 30).2

/-- `cbHalfOpen` computed out. -/
theorem cbHalfOpen_eq :
    cbHalfOpen = { failure_threshold := 1, open_duration_s := 30, failures := 1,
                   state := .half_open, opened_at := 0 } := by
  have h0 : (SimpleCircuitBreaker.init 1 30).record_failure 0 =
      { failure_threshold := 1, open_duration_s := 30, failures := 1,
        state := .opened, opened_at := 0 } := by
    simp [SimpleCircuitBreaker.init, SimpleCircuitBreaker.record_failure]
  show (((SimpleCircuitBreaker.init 1 30).record_failure 0).allow_request 30).2 = _
  rw [h0, allow_request_opened_late 30 _ rfl (by norm_num)]

/-- C7 (code bug): in the half-open state the code admits every request —
`allow_request` returns `True` and leaves the state `half_open`
(src/utils/call_llm.py lines 64-65), despite its own comment "allow a
single request to test".  Concretely: from a reachable half-open breaker,
a first call is admitted, nothing is recorded, and a second call is
admitted as well, contradicting "exactly one trial call". -/
theorem half_open_admits_second_call :
    cbHalfOpen.state = .half_open ∧
    (cbHalfOpen.allow_request 31).1 = true ∧
    (cbHalfOpen.allow_request 31).2 = cbHalfOpen ∧
    ((cbHalfOpen.allow_request 31).2.allow_request 32).1 = true := by
  rw [cbHalfOpen_eq]
  refine ⟨rfl, ?_, ?_, ?_⟩ <;> simp [SimpleCircuitBreaker.allow_request]

/-- C10: whenever the wrapper rejects a call before dispatch — because the
rate-limit window is exhausted or the breaker does not admit the request —
the underlying outbound call is not invoked and the breaker's
consecutive-failure counter and state (the whole breaker record) are left
unchanged by that invocation. -/
theorem rejected_call_leaves_breaker_unchanged (t1 t2 t3 : ℚ)
    (u : Except String String) (rl : SimpleRateLimiter)
    (cb : SimpleCircuitBreaker)
    (h : (call_llm t1 t2 t3 u rl cb).result = .error .rateLimitExceeded ∨
         (call_llm t1 t2 t3 u rl cb).result = .error .circuitOpenError) :
    (call_llm t1 t2 t3 u rl cb).invoked = false ∧
    (call_llm t1 t2 t3 u rl cb).cb = cb := by
  rcases h1 : SimpleRateLimiter.allow t1 rl with ⟨ok, rl'⟩
  cases ok with
  | false => simp [call_llm, h1]
  | true =>
      rcases h2 : SimpleCircuitBreaker.allow_request t2 cb with ⟨adm, cb'⟩
      cases adm with
      | false =>
          have hframe : cb' = cb := by
            have := allow_request_false_frame t2 cb (by rw [h2])
            rwa [h2] at this
          simp [call_llm, h1, h2, hframe]
      | true =>
          exfalso
          cases u <;> simp [call_llm, h1, h2] at h

/-- Witness for `rejected_call_leaves_breaker_unchanged`: a limiter with
`max_calls = 0` rejects, and the wrapped call leaves the breaker exactly
as it was. -/
theorem rejected_call_leaves_breaker_unchanged_witness :
    (call_llm 0 0 0 (.ok "hi")
      { max_calls := 0, period_s := 1, window_start := 0, count := 0 }
      (SimpleCircuitBreaker.init 5 30)).invoked = false ∧
    (call_llm 0 0 0 (.ok "hi")
      { max_calls := 0, period_s := 1, window_start := 0, count := 0 }
      (SimpleCircuitBreaker.init 5 30)).cb = SimpleCircuitBreaker.init 5 30 := by
  have hallow : SimpleRateLimiter.allow 0
      { max_calls := 0, period_s := 1, window_start := 0, count := 0 } =
      (false, { max_calls := 0, period_s := 1, window_start := 0, count := 0 }) := by
    simp [SimpleRateLimiter.allow]
  have hres : (call_llm 0 0 0 (.ok "hi")
      { max_calls := 0, period_s := 1, window_start := 0, count := 0 }
      (SimpleCircuitBreaker.init 5 30)).result = .error .rateLimitExceeded := by
    simp [call_llm, hallow]
  exact rejected_call_leaves_breaker_unchanged 0 0 0 (.ok "hi") _ _ (Or.inl hres)

/-! ## Routing errors (spec sections 4.2 and 7)

The flow engine itself is the external pocketflow package and is not under
src/; the next definition is modelled from the spec. -/

/-- Outcome of one successful edge-resolution step. -/
inductive StepOutcome where
  | advance (next : NodeId)
  deriving DecidableEq

/-- The fatal errors of the engine's routing layer (spec section 7). -/
inductive FlowError where
  | routingError (node : NodeId) (action : String)
  deriving DecidableEq

/-- Modelled from the spec: the flow engine's edge resolution (the engine
is the external pocketflow package, absent from src/). Spec section 4.2:
look up `(node, action)`, falling back to `(node, "default")`; spec
section 7: "`RoutingError` — finalize returned an action with no matching
edge and no default edge; always fatal, aborts the run immediately." -/
def flowStep (edges : NodeId → String → Option NodeId) (n : NodeId)
    (action : String) : Except FlowError StepOutcome :=
  match edges n action with
  | some n' => .ok (.advance n')
  | none =>
      match edges n "default" with
      | some n' => .ok (.advance n')
      | none => .error (.routingError n action)

/-- C8: whenever a node's finalize returns an action with no matching edge
and no default edge in the routing table, the engine step aborts with the
fatal `RoutingError` — it neither advances to another node nor terminates
as a success. -/
theorem unmatched_action_aborts_with_routing_error
    (edges : NodeId → String → Option NodeId) (n : NodeId) (action : String)
    (h1 : edges n action = none) (h2 : edges n "default" = none) :
    flowStep edges n action = .error (.routingError n action) ∧
    ∀ o : StepOutcome, flowStep edges n action ≠ .ok o := by
  simp [flowStep, h1, h2]

/-- Witness for `unmatched_action_aborts_with_routing_error` on the actual
routing table of `create_pr_flow`: the compliance node has edges only for
`"revise"`, `"max_revisions"` and `"pass"`, and no default edge, so an
unknown action aborts the run. -/
theorem unmatched_action_aborts_with_routing_error_witness :
    flowStep prFlowEdges .styleCompliance "bogus" =
      .error (.routingError .styleCompliance "bogus") :=
  (unmatched_action_aborts_with_routing_error prFlowEdges .styleCompliance
    "bogus" rfl rfl).1

/-! ## Default-population of the shared store
(src/nodes.py, EngagementManagerNode.post lines 63-150)

`EngagementManagerNode.post` installs the default schema with `setdefault`
calls, creates the stream handle, loads presets for missing content, and
normalizes the subreddit field.  The on-disk preset store is an external
collaborator, abstracted as a lookup function; `save_preset` calls write
only to that store and never change the shared record, so they are
dropped.  The trailing stage bookkeeping of `post` (stream milestone,
`current_stage`/`completed_stages` advance, auto-intent merge from the
exec result) is stage transition logic, not default-population, and is
outside this operation.

The Python string primitives are restated over the character list so they
evaluate inside the kernel. -/

/-- Python `str.strip()`: drop leading and trailing whitespace. -/
def pyStrip (s : String) : String :=
  String.mk (((s.data.dropWhile Char.isWhitespace).reverse.dropWhile
    Char.isWhitespace).reverse)

/-- Python `str.startswith(pre)`. -/
def pyStartsWith (s pre : String) : Bool := pre.data.isPrefixOf s.data

/-- Split a character list at every occurrence of `sep`
(Python `str.split(sep)` for a one-character separator). -/
def splitChar (sep : Char) : List Char → List (List Char)
  | [] => [[]]
  | c :: rest =>
      if c = sep then [] :: splitChar sep rest
      else
        match splitChar sep rest with
        | [] => [[c]]
        | h :: t => (c :: h) :: t

/-- Python `s.split("/")`. -/
def pySplitSlash (s : String) : List String :=
  (splitChar '/' s.data).map String.mk

/-- `parts.index("r")` followed by `parts[idx + 1]` when it exists: the
element after the first `"r"`. -/
def afterFirstR : List String → Option String
  | [] => none
  | x :: xs => if x = "r" then xs.head? else afterFirstR xs

/-- Python `s.lstrip("r/")`: drop every leading character that is `'r'` or
`'/'`. -/
def pyLstripRSlash (s : String) : String :=
  String.mk (s.data.dropWhile (fun c => c == 'r' || c == '/'))

/-- `normalize_subreddit` (src/utils/input_normalize.py): strip, crude
URL extraction of the path segment after `"r"`, `lstrip("r/")`, lower. -/
def normalize_subreddit (s : String) : String :=
  let s := pyStrip s
  let s :=
    if pyStartsWith s "http" then
      match afterFirstR (pySplitSlash s) with
      | some nxt => nxt
      | none => s
    else s
  let s := pyLstripRSlash s
  pyLower s

/-- `shared["config"]` (src/nodes.py line 63). -/
structure Config where
  style_policy : String
  deriving DecidableEq

/-- An entry of `task_requirements["intents_by_platform"]`: the dict
`{"type": ..., "value": ...}`. -/
structure Intent where
  intent_type : String
  value : String
  deriving DecidableEq

/-- `shared["task_requirements"]` (src/nodes.py lines 64-73). -/
structure TaskRequirements where
  platforms : List String
  intents_by_platform : List (String × Intent)
  topic_or_goal : String
  subreddit_name_or_title : Option String
  urgency_level : String
  deriving DecidableEq

/-- The fields of `shared["brand_bible"]` the default-population reads and
writes (its parsed/persona fields are written by later stages). -/
structure BrandBible where
  xml_raw : Option String
  preset_name : Option String
  save_as_preset : Bool
  deriving DecidableEq

/-- `house_style["email_signature"]` / `house_style["blog_style"]`:
`{"name": ..., "content": ...}` plus the optional save flag. -/
structure SigStyle where
  name : Option String
  content : Option String
  save_as_preset : Bool
  deriving DecidableEq

/-- `shared["house_style"]` (src/nodes.py lines 85-88). -/
structure HouseStyle where
  email_signature : SigStyle
  blog_style : SigStyle
  deriving DecidableEq

/-- `shared["reddit"]` (src/nodes.py line 90). -/
structure RedditInfo where
  rules_text : Option String
  description_text : Option String
  deriving DecidableEq

/-- `platform_nuance["linkedin"]`. -/
structure LinkedinNuance where
  whitespace_density : String
  para_length : String
  hashtag_placement : String
  deriving DecidableEq

/-- `platform_nuance["twitter"]`. -/
structure TwitterNuance where
  thread_ok_above_chars : Nat
  hashtag_count_range : List Nat
  deriving DecidableEq

/-- `platform_nuance["instagram"]`. -/
structure InstagramNuance where
  emoji_freq : String
  line_breaks : String
  hashtag_count_range : List Nat
  deriving DecidableEq

/-- `platform_nuance["reddit"]`. -/
structure RedditNuance where
  markdown_blocks : List String
  tl_dr_required : Bool
  deriving DecidableEq

/-- `platform_nuance["email"]`. -/
structure EmailNuance where
  subject_target_chars : Nat
  single_cta_required : Bool
  deriving DecidableEq

/-- `platform_nuance["blog"]`. -/
structure BlogNuance where
  h2_h3_depth : String
  link_density : String
  deriving DecidableEq

/-- `shared["platform_nuance"]` (src/nodes.py lines 91-98). -/
structure PlatformNuance where
  linkedin : LinkedinNuance
  twitter : TwitterNuance
  instagram : InstagramNuance
  reddit : RedditNuance
  email : EmailNuance
  blog : BlogNuance
  deriving DecidableEq

/-- `shared["final_campaign"]` (src/nodes.py lines 110-115); the content
of the three maps is written by later stages, abstracted as strings since
the default only installs empty maps. -/
structure FinalCampaign where
  approved_content : List (String × String)
  publishing_schedule : List (String × String)
  performance_predictions : List (String × String)
  edit_cycle_report : Option String
  deriving DecidableEq

/-- `shared["llm"]` (src/nodes.py line 118). -/
structure LlmConfig where
  model : String
  temperature : ℚ
  deriving DecidableEq

/-- The shared store record: one field per top-level key that the
default-population touches; `none` marks an absent key (for `stream`,
absent or `None`).  Guideline and content-piece objects are abstracted as
in the rest of this development. -/
structure Shared where
  config : Option Config
  task_requirements : Option TaskRequirements
  brand_bible : Option BrandBible
  house_style : Option HouseStyle
  reddit : Option RedditInfo
  platform_nuance : Option PlatformNuance
  platform_guidelines : Option (List (String × String))
  content_pieces : Option (List (String × Piece))
  style_compliance : Option (List (String × List String))
  workflow_state : Option WorkflowState
  final_campaign : Option FinalCampaign
  stream : Option Unit
  llm : Option LlmConfig
  deriving DecidableEq

/-- Default `config` (src/nodes.py line 63). -/
def defaultConfig : Config := { style_policy := "strict" }

/-- Default `task_requirements` (src/nodes.py lines 64-73). -/
def defaultTaskRequirements : TaskRequirements :=
  { platforms := ["email", "linkedin"],
    intents_by_platform :=
      [("email", { intent_type := "preset", value := "outreach" }),
       ("linkedin", { intent_type := "custom", value := "thought leadership" })],
    topic_or_goal := "Announce our new AI feature",
    subreddit_name_or_title := none,
    urgency_level := "normal" }

/-- Default `brand_bible` (src/nodes.py lines 74-83). -/
def defaultBrandBible : BrandBible :=
  { xml_raw := some ("<brand>\n  <brand_name>Acme</brand_name>\n  <voice>clear</voice>\n  <tone>warm</tone>\n  <forbiddens><item>em_dash</item></forbiddens>\n</brand>"),
    preset_name := none,
    save_as_preset := false }

/-- Default `house_style` (src/nodes.py lines 85-88); the blog-style
content is `json.dumps({"title_case": True})`. -/
def defaultHouseStyle : HouseStyle :=
  { email_signature :=
      { name := none, content := some "Best,\nAcme Team", save_as_preset := false },
    blog_style :=
      { name := none, content := some "\x7b\"title_case\": true\x7d",
        save_as_preset := false } }

/-- Default `reddit` (src/nodes.py line 90). -/
def defaultRedditInfo : RedditInfo :=
  { rules_text := none, description_text := none }

/-- Default `platform_nuance` (src/nodes.py lines 91-98). -/
def defaultPlatformNuance : PlatformNuance :=
  { linkedin := { whitespace_density := "high", para_length := "short",
                  hashtag_placement := "end" },
    twitter := { thread_ok_above_chars := 240, hashtag_count_range := [0, 3] },
    instagram := { emoji_freq := "moderate", line_breaks := "liberal",
                   hashtag_count_range := [8, 20] },
    reddit := { markdown_blocks := ["lists", "bold"], tl_dr_required := true },
    email := { subject_target_chars := 50, single_cta_required := true },
    blog := { h2_h3_depth := "deep", link_density := "medium" } }

/-- Default `workflow_state` (src/nodes.py lines 104-109). -/
def defaultWorkflowState : WorkflowState :=
  { current_stage := "engagement", completed_stages := [],
    revision_count := 0, manual_review_required := false }

/-- Default `final_campaign` (src/nodes.py lines 110-115). -/
def defaultFinalCampaign : FinalCampaign :=
  { approved_content := [], publishing_schedule := [],
    performance_predictions := [], edit_cycle_report := none }

/-- Default `llm` (src/nodes.py line 118). -/
def defaultLlm : LlmConfig :=
  { model := "anthropic/claude-3.5-sonnet", temperature := 0.7 }

/-- A stored preset payload: the dict keys the loaders read
(`xml_raw` for brand bibles, `content` for signatures and blog styles). -/
structure PresetPayload where
  xml_raw : Option String
  content : Option String
  deriving DecidableEq

/-- Python truthiness of an optional string: `None` and `""` are falsy. -/
def truthy : Option String → Bool
  | none => false
  | some s => !(s == "")

/-- The preset-loading pattern of src/nodes.py lines 121-126 / 131-135 /
139-143: when the name is truthy and the current content is falsy, look
the preset up and take its field when that is truthy. -/
def applyPreset (lookup : String → Option PresetPayload)
    (select : PresetPayload → Option String)
    (nameOpt cur : Option String) : Option String :=
  if truthy nameOpt && !truthy cur then
    match nameOpt with
    | some name =>
        match lookup name with
        | some p => if truthy (select p) then select p else cur
        | none => cur
    | none => cur
  else cur

/-- The brand-bible preset load (src/nodes.py lines 121-126).  The
`save_as_preset` branch (lines 128-129) writes only to the external
preset store and does not change the shared record. -/
def populateBrandBible (lookup : String → Option PresetPayload)
    (bb : BrandBible) : BrandBible :=
  { bb with xml_raw :=
      applyPreset lookup (fun p => p.xml_raw) bb.preset_name bb.xml_raw }

/-- The signature/blog-style preset load (src/nodes.py lines 131-135 and
139-143); the save branches again only touch the external store. -/
def populateSig (lookup : String → Option PresetPayload) (sig : SigStyle) :
    SigStyle :=
  { sig with content :=
      applyPreset lookup (fun p => p.content) sig.name sig.content }

/-- Both house-style sub-records, loaded from their preset categories. -/
def populateHouseStyle (lsig lblog : String → Option PresetPayload)
    (hs : HouseStyle) : HouseStyle :=
  { hs with email_signature := populateSig lsig hs.email_signature,
            blog_style := populateSig lblog hs.blog_style }

/-- The subreddit normalization (src/nodes.py lines 147-150): applied when
the field is present and truthy. -/
def normalizeTaskRequirements (tr : TaskRequirements) : TaskRequirements :=
  match tr.subreddit_name_or_title with
  | some sr =>
      if sr = "" then tr
      else { tr with subreddit_name_or_title := some (normalize_subreddit sr) }
  | none => tr

/-- The default-population operation of `EngagementManagerNode.post`
(src/nodes.py lines 63-150): `setdefault` for every schema key, stream
creation, preset loading, subreddit normalization.  `g category name` is
the external `get_preset` store. -/
def defaultPopulate (g : String → String → Option PresetPayload)
    (s : Shared) : Shared :=
  { config := some (s.config.getD defaultConfig),
    task_requirements := some (normalizeTaskRequirements
      (s.task_requirements.getD defaultTaskRequirements)),
    brand_bible := some (populateBrandBible (g "brand_bibles")
      (s.brand_bible.getD defaultBrandBible)),
    house_style := some (populateHouseStyle (g "email_sigs") (g "blog_styles")
      (s.house_style.getD defaultHouseStyle)),
    reddit := some (s.reddit.getD defaultRedditInfo),
    platform_nuance := some (s.platform_nuance.getD defaultPlatformNuance),
    platform_guidelines := some (s.platform_guidelines.getD []),
    content_pieces := some (s.content_pieces.getD []),
    style_compliance := some (s.style_compliance.getD []),
    workflow_state := some (s.workflow_state.getD defaultWorkflowState),
    final_campaign := some (s.final_campaign.getD defaultFinalCampaign),
    stream := some (),
    llm := some (s.llm.getD defaultLlm) }

/-- The preset-loading pattern is idempotent for a fixed store. -/
theorem applyPreset_idem (lookup : String → Option PresetPayload)
    (select : PresetPayload → Option String) (nameOpt cur : Option String) :
    applyPreset lookup select nameOpt (applyPreset lookup select nameOpt cur) =
      applyPreset lookup select nameOpt cur := by
  by_cases h : (truthy nameOpt && !truthy cur) = true
  · cases nameOpt with
    | none => simp [truthy] at h
    | some name =>
        cases hl : lookup name with
        | none =>
            have hfirst : applyPreset lookup select (some name) cur = cur := by
              simp [applyPreset, h, hl]
            rw [hfirst]
            exact hfirst
        | some p =>
            by_cases hp : truthy (select p) = true
            · have hfirst :
                  applyPreset lookup select (some name) cur = select p := by
                simp [applyPreset, h, hl, hp]
              rw [hfirst]
              simp [applyPreset, hp]
            · have hfirst : applyPreset lookup select (some name) cur = cur := by
                simp [applyPreset, h, hl, hp]
              rw [hfirst]
              exact hfirst
  · have hfirst : applyPreset lookup select nameOpt cur = cur := by
      simp [applyPreset, h]
    rw [hfirst]
    exact hfirst

/-- The brand-bible load is idempotent. -/
theorem populateBrandBible_idem (lookup : String → Option PresetPayload)
    (bb : BrandBible) :
    populateBrandBible lookup (populateBrandBible lookup bb) =
      populateBrandBible lookup bb := by
  simp [populateBrandBible, applyPreset_idem]

/-- The signature/blog-style load is idempotent. -/
theorem populateSig_idem (lookup : String → Option PresetPayload)
    (sig : SigStyle) :
    populateSig lookup (populateSig lookup sig) = populateSig lookup sig := by
  simp [populateSig, applyPreset_idem]

/-- The house-style load is idempotent. -/
theorem populateHouseStyle_idem (lsig lblog : String → Option PresetPayload)
    (hs : HouseStyle) :
    populateHouseStyle lsig lblog (populateHouseStyle lsig lblog hs) =
      populateHouseStyle lsig lblog hs := by
  simp [populateHouseStyle, populateSig_idem]

/-- The subreddit value of a shared record is stable when absent, empty,
or a value on which one more `normalize_subreddit` pass changes nothing
(the populated record is then a fixed point of the normalization). -/
def subredditStable (s : Shared) : Prop :=
  match (s.task_requirements.getD defaultTaskRequirements).subreddit_name_or_title with
  | none => True
  | some v => v = "" ∨
      normalize_subreddit (normalize_subreddit v) = normalize_subreddit v

/-- The normalization step is idempotent exactly under `subredditStable`'s
condition on the field. -/
theorem normalizeTaskRequirements_idem (tr : TaskRequirements)
    (h : match tr.subreddit_name_or_title with
         | none => True
         | some v => v = "" ∨
             normalize_subreddit (normalize_subreddit v) = normalize_subreddit v) :
    normalizeTaskRequirements (normalizeTaskRequirements tr) =
      normalizeTaskRequirements tr := by
  cases hsub : tr.subreddit_name_or_title with
  | none => simp [normalizeTaskRequirements, hsub]
  | some v =>
      rw [hsub] at h
      by_cases hv : v = ""
      · simp [normalizeTaskRequirements, hsub, hv]
      · rcases h with h0 | hnn
        · exact absurd h0 hv
        · simp only [normalizeTaskRequirements, hsub, if_neg hv]
          by_cases hv2 : normalize_subreddit v = ""
          · simp [normalizeTaskRequirements, hv2]
          · simp [normalizeTaskRequirements, hv2, hnn]

/-- The shared record used by the concrete evaluations: only
`task_requirements` is present, carrying the subreddit value `"Rfoo"`. -/
def exShared : Shared :=
  { config := none,
    task_requirements := some
      { platforms := [], intents_by_platform := [], topic_or_goal := "",
        subreddit_name_or_title := some "Rfoo", urgency_level := "normal" },
    brand_bible := none, house_style := none, reddit := none,
    platform_nuance := none, platform_guidelines := none,
    content_pieces := none, style_compliance := none, workflow_state := none,
    final_campaign := none, stream := none, llm := none }

/-- C9 counterexample: default-population is not idempotent.  With the
subreddit field `"Rfoo"`, one application normalizes it to `"rfoo"`
(`lstrip("r/")` does not strip the capital `R`, `lower()` then lowers it),
and a second application strips the now-lower-case `r`, yielding `"foo"`:
the records after one and after two applications differ. -/
theorem default_population_not_idempotent :
    defaultPopulate (fun _ _ => none)
        (defaultPopulate (fun _ _ => none) exShared) ≠
      defaultPopulate (fun _ _ => none) exShared ∧
    ((defaultPopulate (fun _ _ => none) exShared).task_requirements.map
        (fun tr => tr.subreddit_name_or_title)) = some (some "rfoo") ∧
    ((defaultPopulate (fun _ _ => none)
        (defaultPopulate (fun _ _ => none) exShared)).task_requirements.map
        (fun tr => tr.subreddit_name_or_title)) = some (some "foo") := by
  refine ⟨?_, by decide, by decide⟩
  intro h
  have h1 : ((defaultPopulate (fun _ _ => none) exShared).task_requirements.map
      (fun tr => tr.subreddit_name_or_title)) = some (some "rfoo") := by decide
  have h2 : ((defaultPopulate (fun _ _ => none)
      (defaultPopulate (fun _ _ => none) exShared)).task_requirements.map
      (fun tr => tr.subreddit_name_or_title)) = some (some "foo") := by decide
  rw [h, h1] at h2
  exact absurd h2 (by decide)

/-- C9 (amended): default-population is idempotent on every shared record
whose subreddit field is absent, empty, or already stable under one more
normalization pass — in particular on every record the schema's own
defaults produce.  (The operation as a whole is not idempotent: see the
counterexample; the `setdefault`, stream, and preset-loading parts are
unconditionally idempotent, only the subreddit normalization is not.) -/
theorem default_population_idempotent_amended
    (g : String → String → Option PresetPayload) (s : Shared)
    (h : subredditStable s) :
    defaultPopulate g (defaultPopulate g s) = defaultPopulate g s := by
  simp only [defaultPopulate, Option.getD_some]
  rw [normalizeTaskRequirements_idem _ h, populateBrandBible_idem,
    populateHouseStyle_idem]

/-- Witness for `default_population_idempotent_amended`: on a record with
no subreddit value (and an empty preset store), two applications agree
with one. -/
theorem default_population_idempotent_amended_witness :
    defaultPopulate (fun _ _ => none)
        (defaultPopulate (fun _ _ => none)
          { exShared with task_requirements := none }) =
      defaultPopulate (fun _ _ => none)
        { exShared with task_requirements := none } :=
  default_population_idempotent_amended (fun _ _ => none)
    { exShared with task_requirements := none } trivial
